import Mathlib

/-!
# loglib: the key-value logging adapter

A shallow embedding of `src/loglib/logger.go`: the `Logger` wrapper around a
zap logger, its `Log`, `With` and `logging` methods and the `logLevel` table.

The zap logger is an external collaborator.  It enters the embedding as a
value (`ZapLogger`) that answers `Check` and carries the fields attached by
`With`; what `Log` does to it is recorded as the list of calls made on it
(`BackendCall`), in program order.  A call of `Log` may not return: a Go index
expression out of range, or a `Write` on an entry of the panic level, is the
outcome `panicked`, and a `Write` on an entry of the fatal level is the
outcome `exited`.
-/

namespace loglib

/-! ## Data model -/

/-- Severities of the backend, `zapcore.Level`. -/
inductive ZapLevel where
  | DebugLevel
  | InfoLevel
  | WarnLevel
  | ErrorLevel
  | DPanicLevel
  | PanicLevel
  | FatalLevel
  deriving DecidableEq, Repr

/-- Go `type Level string`: a named string type, distinct from `string`. -/
structure Level where
  name : String
  deriving DecidableEq, Repr

def DEBUG : Level := ⟨"DEBUG"⟩
def INFO : Level := ⟨"INFO"⟩
def WARN : Level := ⟨"WARN"⟩
def ERROR : Level := ⟨"ERROR"⟩
def DPANIC : Level := ⟨"DPANIC"⟩
def PANIC : Level := ⟨"PANIC"⟩
def FATAL : Level := ⟨"FATAL"⟩

/-- Dynamic values of Go `interface{}`, tagged by their dynamic type. -/
inductive Value where
  | nil
  | level (l : Level)
  | str (s : String)
  | int (n : Int)
  | bool (b : Bool)
  | error (text : String)
  deriving DecidableEq, Repr

/-- Type assertion `v.(Level)`: the value and `ok`. -/
def Value.asLevel : Value → Option Level
  | Value.level l => some l
  | _ => none

/-- Type assertion `v.(string)`: the value and `ok`. -/
def Value.asString : Value → Option String
  | Value.str s => some s
  | _ => none

/-- Rendering `fmt.Sprintf("%v", v)` of the values above: a string or a
`Level` is its text, an error its message. -/
def Sprintf : Value → String
  | Value.nil => "<nil>"
  | Value.level l => l.name
  | Value.str s => s
  | Value.int n => toString n
  | Value.bool b => if b then "true" else "false"
  | Value.error text => text

/-- Go error values made by `errors.New(text)`; `Error()` gives the text. -/
structure GoError where
  text : String
  deriving DecidableEq, Repr

def errorsNew (text : String) : GoError := ⟨text⟩

def GoError.Error (e : GoError) : String := e.text

/-- A structured field, `zap.Field`: a name and a value. -/
structure Field where
  key : String
  value : Value
  deriving DecidableEq, Repr

/-- Constructor `zap.Any(key, value)`: the value is kept as given. -/
def zapAny (key : String) (value : Value) : Field := ⟨key, value⟩

/-- Constructor `zap.Error(err)`: the error under the name `error`. -/
def zapError (err : GoError) : Field := ⟨"error", Value.error err.text⟩

/-- What an entry does once its record is written, `zapcore.CheckWriteAction`:
nothing more, a panic, or the exit of the process. -/
inductive CheckWriteAction where
  | WriteThenNoop
  | WriteThenPanic
  | WriteThenFatal
  deriving DecidableEq, Repr

/-- The record handle `*zapcore.CheckedEntry` returned by a successful `Check`:
the fields of its logger, its severity and message, and what it does after
the write. -/
structure CheckedEntry where
  context : List Field
  level : ZapLevel
  msg : String
  should : CheckWriteAction
  deriving DecidableEq, Repr

/-- Modelled from the spec: the backend `*zap.Logger`, the leveled logger
capability, whose library is not among the sources.  It is given by the
`Check` calls that yield an entry (by severity and message), by the fields
attached so far by `With`, and by whether it is a development logger
(`zap.NewDevelopment`) or not (`zap.NewProduction`, `zap.NewNop`). -/
structure ZapLogger where
  enabled : ZapLevel → String → Bool
  context : List Field
  development : Bool

/-- The terminal behaviour that the backend gives an entry in `Check`, as the
zap library documents it: an entry of the panic level panics after the write,
an entry of the fatal level exits the process after the write, an entry of
the dpanic level panics after the write on a development logger; every
other entry does nothing more. -/
def ZapLogger.terminal (z : ZapLogger) : ZapLevel → CheckWriteAction
  | ZapLevel.PanicLevel => CheckWriteAction.WriteThenPanic
  | ZapLevel.FatalLevel => CheckWriteAction.WriteThenFatal
  | ZapLevel.DPanicLevel =>
    if z.development then CheckWriteAction.WriteThenPanic else CheckWriteAction.WriteThenNoop
  | _ => CheckWriteAction.WriteThenNoop

/-- Modelled from the spec: the backend operation `Check(level, msg)`, which
opens a record at the severity, or gives `nil` when the severity is disabled. -/
def ZapLogger.Check (z : ZapLogger) (level : ZapLevel) (msg : String) : Option CheckedEntry :=
  if z.enabled level msg then some ⟨z.context, level, msg, z.terminal level⟩ else none

/-- Modelled from the spec: the backend operation `With(fields...)`, which
returns a new logger context with the fields attached after those already
there; the receiver is left as it was. -/
def ZapLogger.With (z : ZapLogger) (fields : List Field) : ZapLogger :=
  { z with context := z.context ++ fields }

/-- Calls that commit something to the backend, as made by this package. -/
inductive BackendCall where
  | Error (context : List Field) (msg : String) (fields : List Field)
  | Write (ce : CheckedEntry) (fields : List Field)
  deriving DecidableEq, Repr

/-- Backend `l.Error(msg, fields...)` on a logger, as a recorded call. -/
def ZapLogger.Error (z : ZapLogger) (msg : String) (fields : List Field) : BackendCall :=
  BackendCall.Error z.context msg fields

/-- How a Go call ends: it returns a value, it panics (an index out of range,
or the panic of the backend after a write), or the process exits. -/
inductive Outcome (α : Type) where
  | returned (a : α)
  | panicked
  | exited
  deriving DecidableEq, Repr

/-- Method `ce.Write(fields...)`: the recorded call, and how the call ends.
The record is written first; then the entry panics, exits the process, or
returns to its caller, as `Check` has set it up. -/
def CheckedEntry.Write (ce : CheckedEntry) (fields : List Field) :
    Outcome Unit × BackendCall :=
  (match ce.should with
    | CheckWriteAction.WriteThenNoop => Outcome.returned ()
    | CheckWriteAction.WriteThenPanic => Outcome.panicked
    | CheckWriteAction.WriteThenFatal => Outcome.exited,
   BackendCall.Write ce fields)

/-- Go `type Logger struct { *zap.Logger }`. -/
structure Logger where
  zap : ZapLogger

/-- What a call of `Log` does: how it ends and the backend calls it made. -/
structure Result where
  ret : Outcome (Option GoError)
  calls : List BackendCall
  deriving DecidableEq, Repr

/-! ## The level table -/

/-- The map `logLevel`: lookup gives the backend level and `ok`. -/
def logLevel (level : Level) : Option ZapLevel :=
  if level = DEBUG then some ZapLevel.DebugLevel
  else if level = INFO then some ZapLevel.InfoLevel
  else if level = WARN then some ZapLevel.WarnLevel
  else if level = ERROR then some ZapLevel.ErrorLevel
  else if level = DPANIC then some ZapLevel.DPanicLevel
  else if level = PANIC then some ZapLevel.PanicLevel
  else if level = FATAL then some ZapLevel.FatalLevel
  else none

/-! ## Operations -/

/-- Method `(l *Logger) logging(level, msg, fields)`: `return nil` is reached
only when `ce.Write` returns. -/
def Logger.logging (l : Logger) (level : ZapLevel) (msg : String) (fields : List Field) :
    Outcome (Option GoError) × List BackendCall :=
  match l.zap.Check level msg with
  | some ce =>
    match ce.Write fields with
    | (Outcome.returned _, call) => (Outcome.returned none, [call])
    | (Outcome.panicked, call) => (Outcome.panicked, [call])
    | (Outcome.exited, call) => (Outcome.exited, [call])
  | none => (Outcome.returned (some (errorsNew "fail to logging")), [])

/-- How the field loop of `Log` ends. -/
inductive LoopOutcome where
  | done (fields : List Field)
  | badKey
  | outOfRange
  deriving DecidableEq, Repr

/-- The loop `for i := 2; i < len(keyvals); i += 2` of `Log`.  The first
argument is `keyvals[i:]`: its head is `keyvals[i]`, its second element is
`keyvals[i+1]`, and a missing second element is an index out of range.  The
second argument is `fields` as built so far. -/
def fieldsLoop : List Value → List Field → LoopOutcome
  | [], fields => LoopOutcome.done fields
  | [k], _ =>
    match k.asString with
    | none => LoopOutcome.badKey
    | some _ => LoopOutcome.outOfRange
  | k :: v :: rest, fields =>
    match k.asString with
    | none => LoopOutcome.badKey
    | some key => fieldsLoop rest (fields ++ [zapAny key v])

/-- The error path shared by every failing branch of `Log`:
`l.Error(err.Error(), zap.Error(err)); return err`. -/
def Logger.fail (l : Logger) (err : GoError) (before : List BackendCall) : Result :=
  ⟨Outcome.returned (some err), before ++ [l.zap.Error err.Error [zapError err]]⟩

/-- Method `(l *Logger) Log(keyvals ...interface{}) error`. -/
def Logger.Log (l : Logger) (keyvals : List Value) : Result :=
  if keyvals.length = 0 then
    l.fail (errorsNew "key value pair should not be zero number") []
  else if keyvals.length % 2 ≠ 0 then
    l.fail (errorsNew "key value pair should be even number") []
  else
    match keyvals[0]? with
    | none => ⟨Outcome.panicked, []⟩
    | some v0 =>
      match v0.asLevel with
      | none => l.fail (errorsNew "first key should be level type") []
      | some level =>
        match logLevel level with
        | none => l.fail (errorsNew "can not find correspond log level") []
        | some lv =>
          match keyvals[1]? with
          | none => ⟨Outcome.panicked, []⟩
          | some v1 =>
            let msg := Sprintf v1
            match fieldsLoop (keyvals.drop 2) [] with
            | LoopOutcome.badKey => l.fail (errorsNew "key should be string type") []
            | LoopOutcome.outOfRange => ⟨Outcome.panicked, []⟩
            | LoopOutcome.done fields =>
              match l.logging lv msg fields with
              | (Outcome.returned (some err), calls) => l.fail err calls
              | (Outcome.returned none, calls) => ⟨Outcome.returned none, calls⟩
              | (Outcome.panicked, calls) => ⟨Outcome.panicked, calls⟩
              | (Outcome.exited, calls) => ⟨Outcome.exited, calls⟩

/-- Method `(l *Logger) With(fields ...zap.Field)`: it has a pointer receiver
and no result; the value is the logger `l` after the call. -/
def Logger.With (l : Logger) (fields : List Field) : Logger :=
  { l with zap := l.zap.With fields }

/-! ## Test data -/

/-- A production backend with no attached fields on which every `Check`
yields an entry. -/
def allOn : Logger := ⟨⟨fun _ _ => true, [], false⟩⟩

/-- A production backend with no attached fields on which every `Check`
yields `nil`. -/
def allOff : Logger := ⟨⟨fun _ _ => false, [], false⟩⟩

/-- A development backend with no attached fields on which every `Check`
yields an entry. -/
def devOn : Logger := ⟨⟨fun _ _ => true, [], true⟩⟩

/-! ## What the specification says of an argument list -/

/-- The field names of an argument list are textual: `args[i]` is a string at
every even `i ≥ 2`. -/
def keysAreStrings (keyvals : List Value) : Prop :=
  ∀ i, i < keyvals.length → 2 ≤ i → i % 2 = 0 →
    (keyvals[i]?.bind Value.asString).isSome = true

instance (keyvals : List Value) : Decidable (keysAreStrings keyvals) :=
  inferInstanceAs (Decidable (∀ i, i < keyvals.length → 2 ≤ i → i % 2 = 0 →
    (keyvals[i]?.bind Value.asString).isSome = true))

/-- The validation checks in the order the specification fixes, each with
the error of its failure: non-empty, even length, level type, known level,
textual keys. -/
def validationChecks : List ((List Value → Bool) × GoError) :=
  [(fun args => decide (args ≠ []), ⟨"key value pair should not be zero number"⟩),
   (fun args => decide (args.length % 2 = 0), ⟨"key value pair should be even number"⟩),
   (fun args => (args[0]?.bind Value.asLevel).isSome, ⟨"first key should be level type"⟩),
   (fun args => ((args[0]?.bind Value.asLevel).bind logLevel).isSome,
     ⟨"can not find correspond log level"⟩),
   (fun args => decide (keysAreStrings args), ⟨"key should be string type"⟩)]

/-- The error of the first check, in that order, that an argument list
fails; `none` when it passes them all. -/
def firstFailure (args : List Value) : Option GoError :=
  (validationChecks.find? (fun c => !c.1 args)).map Prod.snd

/-- A backend call is an ERROR self-report. -/
def BackendCall.isError : BackendCall → Bool
  | BackendCall.Error _ _ _ => true
  | BackendCall.Write _ _ => false

/-- How `logging` ends after the `Write` on an entry, by what the entry does
after the write. -/
def afterWrite : CheckWriteAction → Outcome (Option GoError)
  | CheckWriteAction.WriteThenNoop => Outcome.returned none
  | CheckWriteAction.WriteThenPanic => Outcome.panicked
  | CheckWriteAction.WriteThenFatal => Outcome.exited

/-- The texts of the errors `Log` can return. -/
def errorTexts : List String :=
  ["key value pair should not be zero number",
   "key value pair should be even number",
   "first key should be level type",
   "can not find correspond log level",
   "key should be string type",
   "fail to logging"]

/-! ## Lemmas on the level table and the field loop -/

theorem logLevel_isSome_iff (level : Level) :
    (logLevel level).isSome = true ↔
      level ∈ [DEBUG, INFO, WARN, ERROR, DPANIC, PANIC, FATAL] := by
  unfold logLevel
  split_ifs <;> simp_all

theorem even_shape (keyvals : List Value) (h0 : keyvals.length ≠ 0)
    (h2 : keyvals.length % 2 = 0) :
    ∃ v0 v1 rest, keyvals = v0 :: v1 :: rest ∧ rest.length % 2 = 0 := by
  match keyvals, h0, h2 with
  | [], h0, _ => exact absurd rfl h0
  | [_], _, h2 => simp at h2
  | v0 :: v1 :: rest, _, h2 =>
    refine ⟨v0, v1, rest, rfl, ?_⟩
    simp only [List.length_cons] at h2
    omega

/-- On an even-length list whose even positions hold strings the loop ends
normally, with one field per pair, in order. -/
theorem fieldsLoop_done : ∀ (xs : List Value) (acc : List Field),
    xs.length % 2 = 0 →
    (∀ i, i < xs.length → i % 2 = 0 → (xs[i]?.bind Value.asString).isSome = true) →
    ∃ fs, fieldsLoop xs acc = LoopOutcome.done (acc ++ fs) ∧
      fs.length = xs.length / 2 ∧
      ∀ j, j < fs.length → ∃ k v, xs[2 * j]? = some (Value.str k) ∧
        xs[2 * j + 1]? = some v ∧ fs[j]? = some ⟨k, v⟩
  | [], acc, _, _ => ⟨[], by simp [fieldsLoop], rfl, by simp⟩
  | [_], _, h, _ => by simp at h
  | k :: v :: rest, acc, hev, hk => by
    have hk0 := hk 0 (by simp) (by simp)
    obtain ⟨key, rfl⟩ : ∃ key, k = Value.str key := by
      cases k <;> simp [Value.asString] at hk0 ⊢
    have hev2 : rest.length % 2 = 0 := by
      simp only [List.length_cons] at hev; omega
    have hk2 : ∀ i, i < rest.length → i % 2 = 0 →
        (rest[i]?.bind Value.asString).isSome = true := by
      intro i hi hi2
      have := hk (i + 2) (by simp only [List.length_cons]; omega) (by omega)
      simpa using this
    obtain ⟨fs, hfs, hlen, hget⟩ := fieldsLoop_done rest (acc ++ [zapAny key v]) hev2 hk2
    refine ⟨zapAny key v :: fs, ?_, ?_, ?_⟩
    · simp [fieldsLoop, Value.asString, hfs]
    · simp only [List.length_cons, hlen]; omega
    · intro j hj
      cases j with
      | zero => exact ⟨key, v, by simp, by simp, by simp [zapAny]⟩
      | succ j =>
        obtain ⟨k2, v2, h1, h2, h3⟩ := hget j (by simpa using hj)
        refine ⟨k2, v2, ?_, ?_, ?_⟩
        · rw [show 2 * (j + 1) = 2 * j + 1 + 1 by ring]; simpa using h1
        · rw [show 2 * (j + 1) + 1 = 2 * j + 1 + 1 + 1 by ring]; simpa using h2
        · simpa using h3

/-- On an even-length list with a non-string at some even position the loop
ends with the key error. -/
theorem fieldsLoop_badKey : ∀ (xs : List Value) (acc : List Field) (i : Nat),
    xs.length % 2 = 0 → i < xs.length → i % 2 = 0 →
    xs[i]?.bind Value.asString = none →
    fieldsLoop xs acc = LoopOutcome.badKey
  | [], _, _, _, hi, _, _ => by simp at hi
  | [_], _, _, h, _, _, _ => by simp at h
  | k :: v :: rest, acc, i, hev, hi, hi2, hbad => by
    cases hka : k.asString with
    | none => simp [fieldsLoop, hka]
    | some key =>
      have hev2 : rest.length % 2 = 0 := by
        simp only [List.length_cons] at hev; omega
      match i, hi, hi2, hbad with
      | 0, _, _, hbad => simp [hka] at hbad
      | 1, _, hi2, _ => simp at hi2
      | i + 2, hi, hi2, hbad =>
        have h := fieldsLoop_badKey rest (acc ++ [zapAny key v]) i hev2
          (by simpa using hi) (by omega) (by simpa using hbad)
        simp [fieldsLoop, hka, h]

/-- On an even-length list the loop never indexes out of range. -/
theorem fieldsLoop_inRange : ∀ (xs : List Value) (acc : List Field),
    xs.length % 2 = 0 → fieldsLoop xs acc ≠ LoopOutcome.outOfRange
  | [], _, _ => by simp [fieldsLoop]
  | [_], _, h => by simp at h
  | k :: v :: rest, acc, hev => by
    have hev2 : rest.length % 2 = 0 := by
      simp only [List.length_cons] at hev; omega
    cases hka : k.asString with
    | none => simp [fieldsLoop, hka]
    | some key =>
      simpa [fieldsLoop, hka] using fieldsLoop_inRange rest (acc ++ [zapAny key v]) hev2

/-- The first failing check, as a chain of tests. -/
theorem firstFailure_eq (args : List Value) :
    firstFailure args =
      if args = [] then some ⟨"key value pair should not be zero number"⟩
      else if args.length % 2 ≠ 0 then some ⟨"key value pair should be even number"⟩
      else if (args[0]?.bind Value.asLevel) = none then
        some ⟨"first key should be level type"⟩
      else if ((args[0]?.bind Value.asLevel).bind logLevel) = none then
        some ⟨"can not find correspond log level"⟩
      else if ¬ keysAreStrings args then some ⟨"key should be string type"⟩
      else none := by
  simp only [firstFailure, validationChecks, List.find?]
  by_cases h1 : args = []
  · simp [h1]
  by_cases h2 : args.length % 2 = 0
  swap
  · simp [h1, h2]
  cases h3 : args[0]?.bind Value.asLevel with
  | none => simp [h1, h2]
  | some level =>
    cases h4 : logLevel level with
    | none => simp [h1, h2, h4]
    | some lv =>
      by_cases h5 : keysAreStrings args
      · simp [h1, h2, h4, h5]
      · simp [h1, h2, h4, h5]

/-! ## Lemmas on `Log` -/

/-- On a non-empty argument list of even length `Log` passes both length
checks and both index expressions are in range. -/
theorem Log_cons_cons (l : Logger) (v0 v1 : Value) (rest : List Value)
    (h : rest.length % 2 = 0) :
    l.Log (v0 :: v1 :: rest) =
      match v0.asLevel with
      | none => l.fail (errorsNew "first key should be level type") []
      | some level =>
        match logLevel level with
        | none => l.fail (errorsNew "can not find correspond log level") []
        | some lv =>
          match fieldsLoop rest [] with
          | LoopOutcome.badKey => l.fail (errorsNew "key should be string type") []
          | LoopOutcome.outOfRange => ⟨Outcome.panicked, []⟩
          | LoopOutcome.done fields =>
            match l.logging lv (Sprintf v1) fields with
            | (Outcome.returned (some err), calls) => l.fail err calls
            | (Outcome.returned none, calls) => ⟨Outcome.returned none, calls⟩
            | (Outcome.panicked, calls) => ⟨Outcome.panicked, calls⟩
            | (Outcome.exited, calls) => ⟨Outcome.exited, calls⟩ := by
  have h2 : (rest.length + 1 + 1) % 2 = 0 := by omega
  simp [Logger.Log, h2]

/-- What `logging` gives, by the answer of `Check`. -/
theorem logging_eq (l : Logger) (lv : ZapLevel) (msg : String) (fields : List Field) :
    l.logging lv msg fields =
      if l.zap.enabled lv msg then
        (afterWrite (l.zap.terminal lv),
          [BackendCall.Write ⟨l.zap.context, lv, msg, l.zap.terminal lv⟩ fields])
      else (Outcome.returned (some ⟨"fail to logging"⟩), []) := by
  unfold Logger.logging ZapLogger.Check
  split_ifs
  · cases h : l.zap.terminal lv <;> simp [CheckedEntry.Write, afterWrite, h]
  · simp [errorsNew]

/-- On arguments that pass validation `Log` builds one field per pair and
hands them to `logging`; the outcome then depends on the backend alone. -/
theorem Log_valid_args (keyvals : List Value) (level : Level) (lv : ZapLevel) (m : Value)
    (heven : keyvals.length % 2 = 0)
    (h0 : keyvals[0]? = some (Value.level level))
    (hlv : logLevel level = some lv)
    (hm : keyvals[1]? = some m)
    (hkeys : keysAreStrings keyvals) :
    ∃ fields : List Field, fields.length = (keyvals.length - 2) / 2 ∧
      (∀ j, j < fields.length → ∃ k v, keyvals[2 * j + 2]? = some (Value.str k) ∧
        keyvals[2 * j + 3]? = some v ∧ fields[j]? = some ⟨k, v⟩) ∧
      ∀ l : Logger, l.Log keyvals =
        if l.zap.enabled lv (Sprintf m) then
          ⟨afterWrite (l.zap.terminal lv),
            [BackendCall.Write ⟨l.zap.context, lv, Sprintf m, l.zap.terminal lv⟩ fields]⟩
        else
          ⟨Outcome.returned (some ⟨"fail to logging"⟩),
            [BackendCall.Error l.zap.context "fail to logging"
              [⟨"error", Value.error "fail to logging"⟩]]⟩ := by
  have hne : keyvals.length ≠ 0 := by
    intro hz
    have : keyvals = [] := List.length_eq_zero.mp hz
    simp [this] at h0
  obtain ⟨v0, v1, rest, rfl, hrest⟩ := even_shape keyvals hne heven
  simp only [List.getElem?_cons_zero, Option.some.injEq] at h0
  simp only [List.getElem?_cons_succ, List.getElem?_cons_zero, Option.some.injEq] at hm
  subst h0 hm
  have hk : ∀ i, i < rest.length → i % 2 = 0 →
      (rest[i]?.bind Value.asString).isSome = true := by
    intro i hi hi2
    have := hkeys (i + 2) (by simp only [List.length_cons]; omega) (by omega) (by omega)
    simpa using this
  obtain ⟨fs, hfs, hlen, hget⟩ := fieldsLoop_done rest [] hrest hk
  refine ⟨fs, ?_, ?_, ?_⟩
  · simp only [List.length_cons, hlen]; omega
  · intro j hj
    obtain ⟨k, v, h1, h2, h3⟩ := hget j hj
    refine ⟨k, v, ?_, ?_, h3⟩
    · simpa using h1
    · rw [show 2 * j + 3 = 2 * j + 1 + 1 + 1 by ring]; simpa using h2
  · intro l
    rw [Log_cons_cons l _ _ rest hrest]
    simp only [Value.asLevel, hlv, hfs, List.nil_append, logging_eq]
    split_ifs
    · cases h : l.zap.terminal lv <;> simp [afterWrite]
    · simp [Logger.fail, ZapLogger.Error, GoError.Error, zapError]

/-- A call of `Log` either returns an error, reported once through `Error`
and with no `Write`, or makes one `Write` and then ends as the entry sets it:
it returns `nil`, panics or exits. -/
theorem Log_cases (l : Logger) (keyvals : List Value) :
    (∃ e : GoError, e.text ∈ errorTexts ∧
      l.Log keyvals = ⟨Outcome.returned (some e),
        [BackendCall.Error l.zap.context e.text [⟨"error", Value.error e.text⟩]]⟩) ∨
    (∃ ce fields, l.Log keyvals = ⟨afterWrite ce.should, [BackendCall.Write ce fields]⟩) := by
  by_cases h0 : keyvals.length = 0
  · left
    refine ⟨⟨"key value pair should not be zero number"⟩, by simp [errorTexts], ?_⟩
    simp [Logger.Log, h0, Logger.fail, ZapLogger.Error, GoError.Error, zapError, errorsNew]
  by_cases h2 : keyvals.length % 2 = 0
  swap
  · left
    refine ⟨⟨"key value pair should be even number"⟩, by simp [errorTexts], ?_⟩
    simp [Logger.Log, h0, h2, Logger.fail, ZapLogger.Error, GoError.Error, zapError, errorsNew]
  obtain ⟨v0, v1, rest, rfl, hrest⟩ := even_shape keyvals h0 h2
  rw [Log_cons_cons l _ _ rest hrest]
  cases hl : v0.asLevel with
  | none =>
    left
    refine ⟨⟨"first key should be level type"⟩, by simp [errorTexts], ?_⟩
    simp [Logger.fail, ZapLogger.Error, GoError.Error, zapError, errorsNew]
  | some level =>
    cases hlv : logLevel level with
    | none =>
      left
      refine ⟨⟨"can not find correspond log level"⟩, by simp [errorTexts], ?_⟩
      simp [hlv, Logger.fail, ZapLogger.Error, GoError.Error, zapError, errorsNew]
    | some lv =>
      cases hloop : fieldsLoop rest [] with
      | badKey =>
        left
        refine ⟨⟨"key should be string type"⟩, by simp [errorTexts], ?_⟩
        simp [hlv, Logger.fail, ZapLogger.Error, GoError.Error, zapError, errorsNew]
      | outOfRange => exact absurd hloop (fieldsLoop_inRange rest [] hrest)
      | done fields =>
        simp only [hlv, logging_eq]
        by_cases hen : l.zap.enabled lv (Sprintf v1) = true
        · right
          refine ⟨⟨l.zap.context, lv, Sprintf v1, l.zap.terminal lv⟩, fields, ?_⟩
          cases h : l.zap.terminal lv <;> simp [hen, afterWrite]
        · left
          refine ⟨⟨"fail to logging"⟩, by simp [errorTexts], ?_⟩
          simp [hen, Logger.fail, ZapLogger.Error, GoError.Error, zapError]

/-- Whenever some validation check fails, `Log` returns the error of the first
failing check and its only backend call is the self-report of that error. -/
theorem Log_of_firstFailure (l : Logger) (keyvals : List Value) (e : GoError)
    (h : firstFailure keyvals = some e) :
    l.Log keyvals = ⟨Outcome.returned (some e),
      [BackendCall.Error l.zap.context e.text [⟨"error", Value.error e.text⟩]]⟩ := by
  rw [firstFailure_eq] at h
  by_cases h0 : keyvals = []
  · subst h0
    simp at h
    subst h
    simp [Logger.Log, Logger.fail, ZapLogger.Error, GoError.Error, zapError, errorsNew]
  have hlen : keyvals.length ≠ 0 := fun hz => h0 (List.length_eq_zero.mp hz)
  rw [if_neg h0] at h
  by_cases h2 : keyvals.length % 2 = 0
  swap
  · rw [if_pos h2] at h
    simp only [Option.some.injEq] at h
    subst h
    simp [Logger.Log, hlen, h2, Logger.fail, ZapLogger.Error, GoError.Error, zapError,
      errorsNew]
  rw [if_neg (not_not.mpr h2)] at h
  obtain ⟨v0, v1, rest, rfl, hrest⟩ := even_shape keyvals hlen h2
  rw [Log_cons_cons l _ _ rest hrest]
  simp only [List.getElem?_cons_zero, Option.some_bind] at h
  cases hl : v0.asLevel with
  | none =>
    simp [hl] at h
    subst h
    simp [Logger.fail, ZapLogger.Error, GoError.Error, zapError, errorsNew]
  | some level =>
    cases hlv : logLevel level with
    | none =>
      simp [hl, hlv] at h
      subst h
      simp [hlv, Logger.fail, ZapLogger.Error, GoError.Error, zapError, errorsNew]
    | some lv =>
      by_cases hkeys : keysAreStrings (v0 :: v1 :: rest)
      · simp [hl, hlv, hkeys] at h
      · simp [hl, hlv, hkeys] at h
        subst h
        have hex : ∃ n, n < rest.length ∧ n % 2 = 0 ∧
            rest[n]?.bind Value.asString = none := by
          unfold keysAreStrings at hkeys
          push_neg at hkeys
          obtain ⟨i, hi, hi2, hie, hbad⟩ := hkeys
          obtain ⟨n, rfl⟩ : ∃ n, i = n + 2 := ⟨i - 2, by omega⟩
          refine ⟨n, ?_, by omega, ?_⟩
          · simp only [List.length_cons] at hi; omega
          · simpa using hbad
        obtain ⟨n, hn, hn2, hbad⟩ := hex
        have hloop := fieldsLoop_badKey rest [] n hrest hn hn2 hbad
        simp [hlv, hloop, Logger.fail, ZapLogger.Error, GoError.Error, zapError, errorsNew]

/-- How a `Write` at the severity of a table level ends. -/
theorem afterWrite_terminal (z : ZapLogger) (level : Level) (lv : ZapLevel)
    (hlv : logLevel level = some lv) :
    ((level ∈ [DEBUG, INFO, WARN, ERROR] ∨ (level = DPANIC ∧ z.development = false)) →
      afterWrite (z.terminal lv) = Outcome.returned none) ∧
    ((level = PANIC ∨ (level = DPANIC ∧ z.development = true)) →
      afterWrite (z.terminal lv) = Outcome.panicked) ∧
    (level = FATAL → afterWrite (z.terminal lv) = Outcome.exited) := by
  unfold logLevel at hlv
  cases hd : z.development <;>
    split_ifs at hlv <;> simp only [Option.some.injEq] at hlv <;> subst hlv <;> subst_vars <;>
    simp [afterWrite, ZapLogger.terminal, hd, DEBUG, INFO, WARN, ERROR, DPANIC, PANIC, FATAL]

/-! ## The claims -/

/-- C10: `Log` called with no argument returns the error "key value pair
should not be zero number", reported once through `Error`; the call returns,
so it indexes nothing in the empty list. -/
theorem Log_empty_args (l : Logger) :
    l.Log [] = ⟨Outcome.returned (some ⟨"key value pair should not be zero number"⟩),
      [BackendCall.Error l.zap.context "key value pair should not be zero number"
        [⟨"error", Value.error "key value pair should not be zero number"⟩]]⟩ := by
  simp [Logger.Log, Logger.fail, ZapLogger.Error, GoError.Error, zapError, errorsNew]

/-- C9: on every argument list of odd length, whatever the types of its
elements, `Log` returns the error "key value pair should be even number". -/
theorem Log_odd_length (l : Logger) (keyvals : List Value)
    (hodd : keyvals.length % 2 = 1) :
    l.Log keyvals = ⟨Outcome.returned (some ⟨"key value pair should be even number"⟩),
      [BackendCall.Error l.zap.context "key value pair should be even number"
        [⟨"error", Value.error "key value pair should be even number"⟩]]⟩ := by
  have h0 : keyvals.length ≠ 0 := by omega
  simp [Logger.Log, h0, hodd, Logger.fail, ZapLogger.Error, GoError.Error, zapError,
    errorsNew]

/-- C9 at `Log(INFO, "msg", "onlykey")` and at a lone level argument. -/
theorem Log_odd_length_witness :
    ([Value.level INFO, Value.str "msg", Value.str "onlykey"].length % 2 = 1 ∧
      allOn.Log [Value.level INFO, Value.str "msg", Value.str "onlykey"] =
        ⟨Outcome.returned (some ⟨"key value pair should be even number"⟩),
          [BackendCall.Error allOn.zap.context "key value pair should be even number"
            [⟨"error", Value.error "key value pair should be even number"⟩]]⟩) ∧
    ([Value.level INFO].length % 2 = 1 ∧
      allOn.Log [Value.level INFO] =
        ⟨Outcome.returned (some ⟨"key value pair should be even number"⟩),
          [BackendCall.Error allOn.zap.context "key value pair should be even number"
            [⟨"error", Value.error "key value pair should be even number"⟩]]⟩) :=
  ⟨⟨by decide, Log_odd_length allOn _ (by decide)⟩,
   ⟨by decide, Log_odd_length allOn _ (by decide)⟩⟩

/-- C6: on every argument list of even, non-zero length whose first element
is not of type `Level`, `Log` returns the error "first key should be level
type", whatever the other arguments are. -/
theorem Log_first_not_level (l : Logger) (keyvals : List Value)
    (hne : keyvals.length ≠ 0) (heven : keyvals.length % 2 = 0)
    (hnot : ∀ level, keyvals[0]? ≠ some (Value.level level)) :
    l.Log keyvals = ⟨Outcome.returned (some ⟨"first key should be level type"⟩),
      [BackendCall.Error l.zap.context "first key should be level type"
        [⟨"error", Value.error "first key should be level type"⟩]]⟩ := by
  obtain ⟨v0, v1, rest, rfl, hrest⟩ := even_shape keyvals hne heven
  rw [Log_cons_cons l _ _ rest hrest]
  have hl : v0.asLevel = none := by
    cases v0 with
    | level lvl => exact absurd rfl (hnot lvl)
    | _ => rfl
  simp [hl, Logger.fail, ZapLogger.Error, GoError.Error, zapError, errorsNew]

/-- C6 at `Log("INFO", "msg")`, the level given as a plain string. -/
theorem Log_first_not_level_witness :
    [Value.str "INFO", Value.str "msg"].length ≠ 0 ∧
    [Value.str "INFO", Value.str "msg"].length % 2 = 0 ∧
    (∀ level, [Value.str "INFO", Value.str "msg"][0]? ≠ some (Value.level level)) ∧
    allOn.Log [Value.str "INFO", Value.str "msg"] =
      ⟨Outcome.returned (some ⟨"first key should be level type"⟩),
        [BackendCall.Error allOn.zap.context "first key should be level type"
          [⟨"error", Value.error "first key should be level type"⟩]]⟩ :=
  ⟨by decide, by decide, by intro level; simp,
   Log_first_not_level allOn _ (by decide) (by decide) (by intro level; simp)⟩

/-- C7: on every non-empty, even-length argument list whose first element is
a `Level` other than the seven named ones, `Log` returns the error "can not
find correspond log level" and writes no record at any severity; each of the
seven named levels is in the table. -/
theorem Log_unknown_level (l : Logger) (keyvals : List Value) (level : Level)
    (heven : keyvals.length % 2 = 0)
    (h0 : keyvals[0]? = some (Value.level level))
    (hnot : level ∉ [DEBUG, INFO, WARN, ERROR, DPANIC, PANIC, FATAL]) :
    l.Log keyvals = ⟨Outcome.returned (some ⟨"can not find correspond log level"⟩),
      [BackendCall.Error l.zap.context "can not find correspond log level"
        [⟨"error", Value.error "can not find correspond log level"⟩]]⟩ ∧
    logLevel DEBUG = some ZapLevel.DebugLevel ∧
    logLevel INFO = some ZapLevel.InfoLevel ∧
    logLevel WARN = some ZapLevel.WarnLevel ∧
    logLevel ERROR = some ZapLevel.ErrorLevel ∧
    logLevel DPANIC = some ZapLevel.DPanicLevel ∧
    logLevel PANIC = some ZapLevel.PanicLevel ∧
    logLevel FATAL = some ZapLevel.FatalLevel := by
  refine ⟨?_, by decide, by decide, by decide, by decide, by decide, by decide, by decide⟩
  have hne : keyvals.length ≠ 0 := by
    intro hz
    have : keyvals = [] := List.length_eq_zero.mp hz
    simp [this] at h0
  obtain ⟨v0, v1, rest, rfl, hrest⟩ := even_shape keyvals hne heven
  simp only [List.getElem?_cons_zero, Option.some.injEq] at h0
  subst h0
  have hlv : logLevel level = none := by
    cases h : logLevel level with
    | none => rfl
    | some lv =>
      exact absurd ((logLevel_isSome_iff level).mp (by simp [h])) hnot
  rw [Log_cons_cons l _ _ rest hrest]
  simp [Value.asLevel, hlv, Logger.fail, ZapLogger.Error, GoError.Error, zapError,
    errorsNew]

/-- C7 at `Log(Level("TRACE"), "msg")`. -/
theorem Log_unknown_level_witness :
    [Value.level ⟨"TRACE"⟩, Value.str "msg"].length % 2 = 0 ∧
    [Value.level ⟨"TRACE"⟩, Value.str "msg"][0]? = some (Value.level ⟨"TRACE"⟩) ∧
    (⟨"TRACE"⟩ : Level) ∉ [DEBUG, INFO, WARN, ERROR, DPANIC, PANIC, FATAL] ∧
    allOn.Log [Value.level ⟨"TRACE"⟩, Value.str "msg"] =
      ⟨Outcome.returned (some ⟨"can not find correspond log level"⟩),
        [BackendCall.Error allOn.zap.context "can not find correspond log level"
          [⟨"error", Value.error "can not find correspond log level"⟩]]⟩ :=
  ⟨by decide, by decide, by decide,
   (Log_unknown_level allOn _ ⟨"TRACE"⟩ (by decide) (by decide) (by decide)).1⟩

/-- C8: on every non-empty, even-length argument list with a level of the
table in which some `args[i]`, `i` even and at least 2, is not a string,
`Log` returns the error "key should be string type", whatever the backend
answers to `Check`. -/
theorem Log_key_not_string (l : Logger) (keyvals : List Value) (level : Level)
    (lv : ZapLevel) (i : Nat)
    (heven : keyvals.length % 2 = 0)
    (h0 : keyvals[0]? = some (Value.level level))
    (hlv : logLevel level = some lv)
    (hi : i < keyvals.length) (hi2 : 2 ≤ i) (hie : i % 2 = 0)
    (hkey : ∀ s, keyvals[i]? ≠ some (Value.str s)) :
    l.Log keyvals = ⟨Outcome.returned (some ⟨"key should be string type"⟩),
      [BackendCall.Error l.zap.context "key should be string type"
        [⟨"error", Value.error "key should be string type"⟩]]⟩ := by
  have hne : keyvals.length ≠ 0 := by omega
  obtain ⟨v0, v1, rest, rfl, hrest⟩ := even_shape keyvals hne heven
  simp only [List.getElem?_cons_zero, Option.some.injEq] at h0
  subst h0
  obtain ⟨n, rfl⟩ : ∃ n, i = n + 2 := ⟨i - 2, by omega⟩
  have hn : n < rest.length := by simpa using hi
  have hbad : rest[n]?.bind Value.asString = none := by
    have hk := hkey
    simp only [List.getElem?_cons_succ] at hk
    cases hv : rest[n]? with
    | none => rfl
    | some v =>
      cases v with
      | str s => exact absurd hv (hk s)
      | _ => rfl
  have hloop := fieldsLoop_badKey rest [] n hrest hn (by omega) hbad
  rw [Log_cons_cons l _ _ rest hrest]
  simp [Value.asLevel, hlv, hloop, Logger.fail, ZapLogger.Error, GoError.Error, zapError,
    errorsNew]

/-- C8 at `Log(INFO, "msg", 42, "value")`, on a backend that answers every
`Check` with `nil`. -/
theorem Log_key_not_string_witness :
    [Value.level INFO, Value.str "msg", Value.int 42, Value.str "value"].length % 2 = 0 ∧
    [Value.level INFO, Value.str "msg", Value.int 42, Value.str "value"][0]? =
      some (Value.level INFO) ∧
    logLevel INFO = some ZapLevel.InfoLevel ∧
    2 < [Value.level INFO, Value.str "msg", Value.int 42, Value.str "value"].length ∧
    2 ≤ 2 ∧ 2 % 2 = 0 ∧
    (∀ s, [Value.level INFO, Value.str "msg", Value.int 42, Value.str "value"][2]? ≠
      some (Value.str s)) ∧
    allOff.Log [Value.level INFO, Value.str "msg", Value.int 42, Value.str "value"] =
      ⟨Outcome.returned (some ⟨"key should be string type"⟩),
        [BackendCall.Error allOff.zap.context "key should be string type"
          [⟨"error", Value.error "key should be string type"⟩]]⟩ :=
  ⟨by decide, by decide, by decide, by decide, by decide, by decide, by intro s; simp,
   Log_key_not_string allOff _ INFO ZapLevel.InfoLevel 2 (by decide) (by decide) (by decide)
     (by decide) (by decide) (by decide) (by intro s; simp)⟩

/-- C4: validation fails fast in the order empty, odd length, level type,
unknown level, key type: whenever some check fails, `Log` returns the error
of the first failing check of that order, whatever the later defects and
whatever the backend answers to `Check`, and its only backend call is the
self-report of that error: nothing is written for the call itself. -/
theorem Log_first_failure (l : Logger) (keyvals : List Value) (e : GoError)
    (h : firstFailure keyvals = some e) :
    l.Log keyvals = ⟨Outcome.returned (some e),
      [BackendCall.Error l.zap.context e.text [⟨"error", Value.error e.text⟩]]⟩ :=
  Log_of_firstFailure l keyvals e h

/-- C4 on argument lists with several defects: an odd list with a wrong
level type and a wrong key type; an even list with a wrong level type and a
wrong key type; an unknown level with a wrong key type. -/
theorem Log_first_failure_witness :
    (firstFailure [Value.str "INFO", Value.str "msg", Value.int 42] =
        some ⟨"key value pair should be even number"⟩ ∧
      allOn.Log [Value.str "INFO", Value.str "msg", Value.int 42] =
        ⟨Outcome.returned (some ⟨"key value pair should be even number"⟩),
          [BackendCall.Error allOn.zap.context "key value pair should be even number"
            [⟨"error", Value.error "key value pair should be even number"⟩]]⟩) ∧
    (firstFailure [Value.str "INFO", Value.str "msg", Value.int 42, Value.nil] =
        some ⟨"first key should be level type"⟩ ∧
      allOn.Log [Value.str "INFO", Value.str "msg", Value.int 42, Value.nil] =
        ⟨Outcome.returned (some ⟨"first key should be level type"⟩),
          [BackendCall.Error allOn.zap.context "first key should be level type"
            [⟨"error", Value.error "first key should be level type"⟩]]⟩) ∧
    (firstFailure [Value.level ⟨"TRACE"⟩, Value.str "msg", Value.int 42, Value.nil] =
        some ⟨"can not find correspond log level"⟩ ∧
      allOff.Log [Value.level ⟨"TRACE"⟩, Value.str "msg", Value.int 42, Value.nil] =
        ⟨Outcome.returned (some ⟨"can not find correspond log level"⟩),
          [BackendCall.Error allOff.zap.context "can not find correspond log level"
            [⟨"error", Value.error "can not find correspond log level"⟩]]⟩) :=
  ⟨⟨by decide, Log_first_failure allOn _ _ (by decide)⟩,
   ⟨by decide, Log_first_failure allOn _ _ (by decide)⟩,
   ⟨by decide, Log_first_failure allOff _ _ (by decide)⟩⟩

/-- C1, as stated, fails at `Log(INFO, "msg")` on a backend that answers
every `Check` with `nil`: the arguments pass validation, `Check` yields no
entry, and `Log` returns the error "fail to logging" and reports it through
`Error`; it is not a silent success. -/
theorem Log_disabled_not_success :
    [Value.level INFO, Value.str "msg"].length % 2 = 0 ∧
    [Value.level INFO, Value.str "msg"][0]? = some (Value.level INFO) ∧
    logLevel INFO = some ZapLevel.InfoLevel ∧
    keysAreStrings [Value.level INFO, Value.str "msg"] ∧
    allOff.zap.Check ZapLevel.InfoLevel (Sprintf (Value.str "msg")) = none ∧
    allOff.Log [Value.level INFO, Value.str "msg"] =
      ⟨Outcome.returned (some ⟨"fail to logging"⟩),
        [BackendCall.Error [] "fail to logging"
          [⟨"error", Value.error "fail to logging"⟩]]⟩ ∧
    ¬ ((allOff.Log [Value.level INFO, Value.str "msg"]).ret = Outcome.returned none ∧
        (allOff.Log [Value.level INFO, Value.str "msg"]).calls = []) := by
  decide

/-- C1, amended: on every argument list that passes validation, if `Check`
yields no entry at the resolved severity then `Log` returns the error "fail
to logging"; it makes no `Write`, so no field is attached and no record is
written for the call, and its only backend call is the self-report of that
error through `Error`. -/
theorem Log_disabled_fails (l : Logger) (keyvals : List Value) (level : Level)
    (lv : ZapLevel) (m : Value)
    (heven : keyvals.length % 2 = 0)
    (h0 : keyvals[0]? = some (Value.level level))
    (hlv : logLevel level = some lv)
    (hm : keyvals[1]? = some m)
    (hkeys : keysAreStrings keyvals)
    (hoff : l.zap.Check lv (Sprintf m) = none) :
    l.Log keyvals = ⟨Outcome.returned (some ⟨"fail to logging"⟩),
      [BackendCall.Error l.zap.context "fail to logging"
        [⟨"error", Value.error "fail to logging"⟩]]⟩ := by
  obtain ⟨fields, _, _, hlog⟩ := Log_valid_args keyvals level lv m heven h0 hlv hm hkeys
  have hen : ¬ l.zap.enabled lv (Sprintf m) = true := by
    intro hc
    simp [ZapLogger.Check, hc] at hoff
  rw [hlog l, if_neg hen]

/-- C1, amended, at `Log(DEBUG, "msg", "k", true)` on a backend that answers
every `Check` with `nil`. -/
theorem Log_disabled_fails_witness :
    [Value.level DEBUG, Value.str "msg", Value.str "k", Value.bool true].length % 2 = 0 ∧
    [Value.level DEBUG, Value.str "msg", Value.str "k", Value.bool true][0]? =
      some (Value.level DEBUG) ∧
    logLevel DEBUG = some ZapLevel.DebugLevel ∧
    [Value.level DEBUG, Value.str "msg", Value.str "k", Value.bool true][1]? =
      some (Value.str "msg") ∧
    keysAreStrings [Value.level DEBUG, Value.str "msg", Value.str "k", Value.bool true] ∧
    allOff.zap.Check ZapLevel.DebugLevel (Sprintf (Value.str "msg")) = none ∧
    allOff.Log [Value.level DEBUG, Value.str "msg", Value.str "k", Value.bool true] =
      ⟨Outcome.returned (some ⟨"fail to logging"⟩),
        [BackendCall.Error allOff.zap.context "fail to logging"
          [⟨"error", Value.error "fail to logging"⟩]]⟩ :=
  ⟨by decide, by decide, by decide, by decide, by decide, by decide,
   Log_disabled_fails allOff _ DEBUG ZapLevel.DebugLevel (Value.str "msg") (by decide)
     (by decide) (by decide) (by decide) (by decide) (by decide)⟩

/-- C5: every failing call of `Log` returns its error and reports that same
error through the backend exactly once, by one `Error` call with the text of
the error as message and the error as its one field.  This holds for each of
the five validation failures (the error is that of the first failing check)
and for the emission failure (the arguments pass validation and `Check`
yields no entry: the error is "fail to logging").  A call that returns `nil`
makes no `Error` call. -/
theorem Log_self_report (l : Logger) (keyvals : List Value) :
    (∀ e, firstFailure keyvals = some e →
      (l.Log keyvals).ret = Outcome.returned (some e) ∧
      (l.Log keyvals).calls.filter BackendCall.isError =
        [BackendCall.Error l.zap.context e.text [⟨"error", Value.error e.text⟩]]) ∧
    (∀ level lv m, keyvals.length % 2 = 0 → keyvals[0]? = some (Value.level level) →
      logLevel level = some lv → keyvals[1]? = some m → keysAreStrings keyvals →
      l.zap.Check lv (Sprintf m) = none →
      (l.Log keyvals).ret = Outcome.returned (some ⟨"fail to logging"⟩) ∧
      (l.Log keyvals).calls.filter BackendCall.isError =
        [BackendCall.Error l.zap.context "fail to logging"
          [⟨"error", Value.error "fail to logging"⟩]]) ∧
    ((l.Log keyvals).ret = Outcome.returned none →
      (l.Log keyvals).calls.filter BackendCall.isError = []) := by
  refine ⟨?_, ?_, ?_⟩
  · intro e he
    rw [Log_of_firstFailure l keyvals e he]
    exact ⟨rfl, by simp [BackendCall.isError]⟩
  · intro level lv m heven h0 hlv hm hkeys hoff
    obtain ⟨fields, _, _, hlog⟩ := Log_valid_args keyvals level lv m heven h0 hlv hm hkeys
    have hen : ¬ l.zap.enabled lv (Sprintf m) = true := by
      intro hc
      simp [ZapLogger.Check, hc] at hoff
    rw [hlog l, if_neg hen]
    exact ⟨rfl, by simp [BackendCall.isError]⟩
  · intro hret
    rcases Log_cases l keyvals with ⟨e, _, hlog⟩ | ⟨ce, fields, hlog⟩
    · rw [hlog] at hret
      simp at hret
    · rw [hlog]
      simp [BackendCall.isError]

/-- C5 at one call for each of the five validation failures, at the emission
failure `Log(INFO, "msg")` on a backend that answers every `Check` with `nil`,
and at the successful `Log(INFO, "msg")`. -/
theorem Log_self_report_witness :
    (firstFailure [] =
        some ⟨"key value pair should not be zero number"⟩ ∧
      (allOn.Log []).ret =
        Outcome.returned (some ⟨"key value pair should not be zero number"⟩) ∧
      (allOn.Log []).calls.filter BackendCall.isError =
        [BackendCall.Error allOn.zap.context "key value pair should not be zero number"
          [⟨"error", Value.error "key value pair should not be zero number"⟩]]) ∧
    (firstFailure [Value.level INFO] =
        some ⟨"key value pair should be even number"⟩ ∧
      (allOn.Log [Value.level INFO]).ret =
        Outcome.returned (some ⟨"key value pair should be even number"⟩) ∧
      (allOn.Log [Value.level INFO]).calls.filter BackendCall.isError =
        [BackendCall.Error allOn.zap.context "key value pair should be even number"
          [⟨"error", Value.error "key value pair should be even number"⟩]]) ∧
    (firstFailure [Value.str "INFO", Value.str "msg"] =
        some ⟨"first key should be level type"⟩ ∧
      (allOn.Log [Value.str "INFO", Value.str "msg"]).ret =
        Outcome.returned (some ⟨"first key should be level type"⟩) ∧
      (allOn.Log [Value.str "INFO", Value.str "msg"]).calls.filter BackendCall.isError =
        [BackendCall.Error allOn.zap.context "first key should be level type"
          [⟨"error", Value.error "first key should be level type"⟩]]) ∧
    (firstFailure [Value.level ⟨"TRACE"⟩, Value.str "msg"] =
        some ⟨"can not find correspond log level"⟩ ∧
      (allOff.Log [Value.level ⟨"TRACE"⟩, Value.str "msg"]).ret =
        Outcome.returned (some ⟨"can not find correspond log level"⟩) ∧
      (allOff.Log [Value.level ⟨"TRACE"⟩, Value.str "msg"]).calls.filter BackendCall.isError =
        [BackendCall.Error allOff.zap.context "can not find correspond log level"
          [⟨"error", Value.error "can not find correspond log level"⟩]]) ∧
    (firstFailure [Value.level INFO, Value.str "msg", Value.int 42, Value.str "value"] =
        some ⟨"key should be string type"⟩ ∧
      (allOff.Log [Value.level INFO, Value.str "msg", Value.int 42, Value.str "value"]).ret =
        Outcome.returned (some ⟨"key should be string type"⟩) ∧
      (allOff.Log [Value.level INFO, Value.str "msg", Value.int 42, Value.str "value"]).calls.filter BackendCall.isError =
        [BackendCall.Error allOff.zap.context "key should be string type"
          [⟨"error", Value.error "key should be string type"⟩]]) ∧
    ([Value.level INFO, Value.str "msg"].length % 2 = 0 ∧
      [Value.level INFO, Value.str "msg"][0]? = some (Value.level INFO) ∧
      logLevel INFO = some ZapLevel.InfoLevel ∧
      [Value.level INFO, Value.str "msg"][1]? = some (Value.str "msg") ∧
      keysAreStrings [Value.level INFO, Value.str "msg"] ∧
      allOff.zap.Check ZapLevel.InfoLevel (Sprintf (Value.str "msg")) = none ∧
      (allOff.Log [Value.level INFO, Value.str "msg"]).ret =
        Outcome.returned (some ⟨"fail to logging"⟩) ∧
      (allOff.Log [Value.level INFO, Value.str "msg"]).calls.filter BackendCall.isError =
        [BackendCall.Error allOff.zap.context "fail to logging"
          [⟨"error", Value.error "fail to logging"⟩]]) ∧
    ((allOn.Log [Value.level INFO, Value.str "msg"]).ret = Outcome.returned none ∧
      (allOn.Log [Value.level INFO, Value.str "msg"]).calls.filter BackendCall.isError = []) :=
  ⟨⟨by decide, (Log_self_report allOn []).1 _ (by decide)⟩,
   ⟨by decide, (Log_self_report allOn [Value.level INFO]).1 _ (by decide)⟩,
   ⟨by decide, (Log_self_report allOn [Value.str "INFO", Value.str "msg"]).1 _ (by decide)⟩,
   ⟨by decide, (Log_self_report allOff [Value.level ⟨"TRACE"⟩, Value.str "msg"]).1 _ (by decide)⟩,
   ⟨by decide, (Log_self_report allOff [Value.level INFO, Value.str "msg", Value.int 42, Value.str "value"]).1 _ (by decide)⟩,
   ⟨by decide, by decide, by decide, by decide, by decide, by decide,
    (Log_self_report allOff [Value.level INFO, Value.str "msg"]).2.1 INFO ZapLevel.InfoLevel
      (Value.str "msg") (by decide) (by decide) (by decide) (by decide) (by decide)
      (by decide)⟩,
   ⟨by decide, (Log_self_report allOn [Value.level INFO, Value.str "msg"]).2.2 (by decide)⟩⟩

/-- C3, as stated, fails at `Log(PANIC, "msg")` and at `Log(FATAL, "msg")` on a
backend that answers every `Check` with an entry: the arguments pass
validation and the record is handed to `Write`, but the call does not return
`nil`: at the panic level the backend panics after the write, at the fatal
level it exits the process.  The same `Log(DPANIC, "msg")` panics on a
development logger. -/
theorem Log_panic_fatal_no_return :
    [Value.level PANIC, Value.str "msg"].length % 2 = 0 ∧
    PANIC ∈ [DEBUG, INFO, WARN, ERROR, DPANIC, PANIC, FATAL] ∧
    keysAreStrings [Value.level PANIC, Value.str "msg"] ∧
    logLevel PANIC = some ZapLevel.PanicLevel ∧
    (allOn.zap.Check ZapLevel.PanicLevel (Sprintf (Value.str "msg"))).isSome = true ∧
    allOn.Log [Value.level PANIC, Value.str "msg"] =
      ⟨Outcome.panicked,
        [BackendCall.Write ⟨[], ZapLevel.PanicLevel, "msg", CheckWriteAction.WriteThenPanic⟩
          []]⟩ ∧
    (allOn.Log [Value.level PANIC, Value.str "msg"]).ret ≠ Outcome.returned none ∧
    [Value.level FATAL, Value.str "msg"].length % 2 = 0 ∧
    FATAL ∈ [DEBUG, INFO, WARN, ERROR, DPANIC, PANIC, FATAL] ∧
    keysAreStrings [Value.level FATAL, Value.str "msg"] ∧
    logLevel FATAL = some ZapLevel.FatalLevel ∧
    (allOn.zap.Check ZapLevel.FatalLevel (Sprintf (Value.str "msg"))).isSome = true ∧
    allOn.Log [Value.level FATAL, Value.str "msg"] =
      ⟨Outcome.exited,
        [BackendCall.Write ⟨[], ZapLevel.FatalLevel, "msg", CheckWriteAction.WriteThenFatal⟩
          []]⟩ ∧
    (allOn.Log [Value.level FATAL, Value.str "msg"]).ret ≠ Outcome.returned none ∧
    devOn.Log [Value.level DPANIC, Value.str "msg"] =
      ⟨Outcome.panicked,
        [BackendCall.Write ⟨[], ZapLevel.DPanicLevel, "msg", CheckWriteAction.WriteThenPanic⟩
          []]⟩ := by
  decide

/-- C3, amended: on every non-empty, even-length argument list whose first
element is one of the seven named levels and whose `args[2]`, `args[4]`, ...
are strings, if `Check` yields an entry at the mapped severity then `Log`
makes exactly one backend call: one `Write`, on the entry of the mapped
severity and of message `Sprintf(args[1])`, with exactly the `(len(args)-2)/2`
fields `(args[2], args[3])`, `(args[4], args[5])`, ... in argument order, each
with its key and its value as given.  `Log` then returns `nil` at DEBUG, INFO,
WARN and ERROR, and at DPANIC on a backend that is not a development logger;
it panics at PANIC, and at DPANIC on a development logger; at FATAL the
process exits. -/
theorem Log_enabled_writes (l : Logger) (keyvals : List Value) (level : Level) (m : Value)
    (heven : keyvals.length % 2 = 0)
    (h0 : keyvals[0]? = some (Value.level level))
    (hconst : level ∈ [DEBUG, INFO, WARN, ERROR, DPANIC, PANIC, FATAL])
    (hm : keyvals[1]? = some m)
    (hkeys : keysAreStrings keyvals)
    (hon : ∀ lv, logLevel level = some lv → (l.zap.Check lv (Sprintf m)).isSome = true) :
    ∃ (lv : ZapLevel) (fields : List Field),
      logLevel level = some lv ∧
      fields.length = (keyvals.length - 2) / 2 ∧
      (∀ j, j < fields.length → ∃ k v, keyvals[2 * j + 2]? = some (Value.str k) ∧
        keyvals[2 * j + 3]? = some v ∧ fields[j]? = some ⟨k, v⟩) ∧
      (l.Log keyvals).calls =
        [BackendCall.Write ⟨l.zap.context, lv, Sprintf m, l.zap.terminal lv⟩ fields] ∧
      ((level ∈ [DEBUG, INFO, WARN, ERROR] ∨ (level = DPANIC ∧ l.zap.development = false)) →
        (l.Log keyvals).ret = Outcome.returned none) ∧
      ((level = PANIC ∨ (level = DPANIC ∧ l.zap.development = true)) →
        (l.Log keyvals).ret = Outcome.panicked) ∧
      (level = FATAL → (l.Log keyvals).ret = Outcome.exited) := by
  obtain ⟨lv, hlv⟩ := Option.isSome_iff_exists.mp ((logLevel_isSome_iff level).mpr hconst)
  obtain ⟨fields, hlen, hget, hlog⟩ := Log_valid_args keyvals level lv m heven h0 hlv hm hkeys
  have hen : l.zap.enabled lv (Sprintf m) = true := by
    have h := hon lv hlv
    unfold ZapLogger.Check at h
    by_contra hc
    simp [hc] at h
  have hends := afterWrite_terminal l.zap level lv hlv
  rw [hlog l, if_pos hen]
  exact ⟨lv, fields, hlv, hlen, hget, rfl, hends.1, hends.2.1, hends.2.2⟩

/-- C3, amended, at `Log(WARN, "msg", "k1", 7, "k2", "v")` on a production
backend that answers every `Check` with an entry. -/
theorem Log_enabled_writes_witness :
    [Value.level WARN, Value.str "msg", Value.str "k1", Value.int 7, Value.str "k2",
      Value.str "v"].length % 2 = 0 ∧
    [Value.level WARN, Value.str "msg", Value.str "k1", Value.int 7, Value.str "k2",
      Value.str "v"][0]? = some (Value.level WARN) ∧
    WARN ∈ [DEBUG, INFO, WARN, ERROR, DPANIC, PANIC, FATAL] ∧
    [Value.level WARN, Value.str "msg", Value.str "k1", Value.int 7, Value.str "k2",
      Value.str "v"][1]? = some (Value.str "msg") ∧
    keysAreStrings [Value.level WARN, Value.str "msg", Value.str "k1", Value.int 7,
      Value.str "k2", Value.str "v"] ∧
    (∀ lv, logLevel WARN = some lv →
      (allOn.zap.Check lv (Sprintf (Value.str "msg"))).isSome = true) ∧
    (WARN ∈ [DEBUG, INFO, WARN, ERROR] ∨ (WARN = DPANIC ∧ allOn.zap.development = false)) ∧
    allOn.Log [Value.level WARN, Value.str "msg", Value.str "k1", Value.int 7,
        Value.str "k2", Value.str "v"] =
      ⟨Outcome.returned none,
        [BackendCall.Write ⟨[], ZapLevel.WarnLevel, "msg", CheckWriteAction.WriteThenNoop⟩
          [⟨"k1", Value.int 7⟩, ⟨"k2", Value.str "v"⟩]]⟩ ∧
    ∃ (lv : ZapLevel) (fields : List Field),
      logLevel WARN = some lv ∧
      fields.length = ([Value.level WARN, Value.str "msg", Value.str "k1", Value.int 7,
        Value.str "k2", Value.str "v"].length - 2) / 2 ∧
      (∀ j, j < fields.length → ∃ k v,
        [Value.level WARN, Value.str "msg", Value.str "k1", Value.int 7, Value.str "k2",
          Value.str "v"][2 * j + 2]? = some (Value.str k) ∧
        [Value.level WARN, Value.str "msg", Value.str "k1", Value.int 7, Value.str "k2",
          Value.str "v"][2 * j + 3]? = some v ∧ fields[j]? = some ⟨k, v⟩) ∧
      (allOn.Log [Value.level WARN, Value.str "msg", Value.str "k1", Value.int 7,
          Value.str "k2", Value.str "v"]).calls =
        [BackendCall.Write ⟨allOn.zap.context, lv, Sprintf (Value.str "msg"),
          allOn.zap.terminal lv⟩ fields] ∧
      (allOn.Log [Value.level WARN, Value.str "msg", Value.str "k1", Value.int 7,
          Value.str "k2", Value.str "v"]).ret = Outcome.returned none :=
  ⟨by decide, by decide, by decide, by decide, by decide,
   by intro lv _; simp [allOn, ZapLogger.Check], by decide, by decide,
   (Log_enabled_writes allOn _ WARN (Value.str "msg") (by decide) (by decide) (by decide)
     (by decide) (by decide) (by intro lv _; simp [allOn, ZapLogger.Check])).imp
     fun _ h => h.imp fun _ h => ⟨h.1, h.2.1, h.2.2.1, h.2.2.2.1, h.2.2.2.2.1 (by decide)⟩⟩

/-- C2, as stated, fails at `With(zap.String("a", "b"))` on a logger with an
empty context: after the call the logger itself holds the new context, and
its next `Log(INFO, "msg")` writes on an entry that carries the field. -/
theorem With_changes_receiver :
    (allOn.With [⟨"a", Value.str "b"⟩]).zap.context ≠ allOn.zap.context ∧
    allOn.Log [Value.level INFO, Value.str "msg"] =
      ⟨Outcome.returned none,
        [BackendCall.Write ⟨[], ZapLevel.InfoLevel, "msg", CheckWriteAction.WriteThenNoop⟩
          []]⟩ ∧
    (allOn.With [⟨"a", Value.str "b"⟩]).Log [Value.level INFO, Value.str "msg"] =
      ⟨Outcome.returned none,
        [BackendCall.Write ⟨[⟨"a", Value.str "b"⟩], ZapLevel.InfoLevel, "msg",
          CheckWriteAction.WriteThenNoop⟩ []]⟩ := by
  decide

/-- C2, amended: `With` derives in place.  After `l.With(fs)` the logger `l`
holds its previous context followed by `fs`, answers `Check` as before and is
a development logger or not as before.  On arguments that pass validation at
an enabled severity, the one backend call of `Log` on `l` after `With` is a
`Write` on an entry carrying the previous context and `fs`, with the same
call-site fields that `Log` on `l` before `With` wrote on an entry carrying
the previous context alone; the call ends (returns, panics or exits) after
`With` as it did before. -/
theorem With_extends_receiver (l : Logger) (fs : List Field) (keyvals : List Value)
    (level : Level) (lv : ZapLevel) (m : Value)
    (heven : keyvals.length % 2 = 0)
    (h0 : keyvals[0]? = some (Value.level level))
    (hlv : logLevel level = some lv)
    (hm : keyvals[1]? = some m)
    (hkeys : keysAreStrings keyvals)
    (hon : l.zap.enabled lv (Sprintf m) = true) :
    (l.With fs).zap.context = l.zap.context ++ fs ∧
    (l.With fs).zap.enabled = l.zap.enabled ∧
    (l.With fs).zap.development = l.zap.development ∧
    ∃ fields : List Field, fields.length = (keyvals.length - 2) / 2 ∧
      (l.Log keyvals).calls =
        [BackendCall.Write ⟨l.zap.context, lv, Sprintf m, l.zap.terminal lv⟩ fields] ∧
      ((l.With fs).Log keyvals).calls =
        [BackendCall.Write ⟨l.zap.context ++ fs, lv, Sprintf m, l.zap.terminal lv⟩ fields] ∧
      ((l.With fs).Log keyvals).ret = (l.Log keyvals).ret := by
  obtain ⟨fields, hlen, _, hlog⟩ := Log_valid_args keyvals level lv m heven h0 hlv hm hkeys
  have hon2 : (l.With fs).zap.enabled lv (Sprintf m) = true := hon
  refine ⟨rfl, rfl, rfl, fields, hlen, ?_, ?_, ?_⟩
  · rw [hlog l, if_pos hon]
  · rw [hlog (l.With fs), if_pos hon2]
    rfl
  · rw [hlog (l.With fs), if_pos hon2, hlog l, if_pos hon]
    rfl

/-- C2, amended, at `With(zap.String("a", "b"))` followed by
`Log(FATAL, "msg", "k", nil)`. -/
theorem With_extends_receiver_witness :
    [Value.level FATAL, Value.str "msg", Value.str "k", Value.nil].length % 2 = 0 ∧
    [Value.level FATAL, Value.str "msg", Value.str "k", Value.nil][0]? =
      some (Value.level FATAL) ∧
    logLevel FATAL = some ZapLevel.FatalLevel ∧
    [Value.level FATAL, Value.str "msg", Value.str "k", Value.nil][1]? =
      some (Value.str "msg") ∧
    keysAreStrings [Value.level FATAL, Value.str "msg", Value.str "k", Value.nil] ∧
    allOn.zap.enabled ZapLevel.FatalLevel (Sprintf (Value.str "msg")) = true ∧
    ((allOn.With [⟨"a", Value.str "b"⟩]).zap.context =
        allOn.zap.context ++ [⟨"a", Value.str "b"⟩] ∧
      (allOn.With [⟨"a", Value.str "b"⟩]).zap.enabled = allOn.zap.enabled ∧
      (allOn.With [⟨"a", Value.str "b"⟩]).zap.development = allOn.zap.development ∧
      ∃ fields : List Field,
        fields.length =
          ([Value.level FATAL, Value.str "msg", Value.str "k", Value.nil].length - 2) / 2 ∧
        (allOn.Log [Value.level FATAL, Value.str "msg", Value.str "k", Value.nil]).calls =
          [BackendCall.Write ⟨allOn.zap.context, ZapLevel.FatalLevel,
            Sprintf (Value.str "msg"), allOn.zap.terminal ZapLevel.FatalLevel⟩ fields] ∧
        ((allOn.With [⟨"a", Value.str "b"⟩]).Log
            [Value.level FATAL, Value.str "msg", Value.str "k", Value.nil]).calls =
          [BackendCall.Write ⟨allOn.zap.context ++ [⟨"a", Value.str "b"⟩],
            ZapLevel.FatalLevel, Sprintf (Value.str "msg"),
            allOn.zap.terminal ZapLevel.FatalLevel⟩ fields] ∧
        ((allOn.With [⟨"a", Value.str "b"⟩]).Log
            [Value.level FATAL, Value.str "msg", Value.str "k", Value.nil]).ret =
          (allOn.Log [Value.level FATAL, Value.str "msg", Value.str "k", Value.nil]).ret) :=
  ⟨by decide, by decide, by decide, by decide, by decide, by decide,
   With_extends_receiver allOn [⟨"a", Value.str "b"⟩] _ FATAL ZapLevel.FatalLevel
     (Value.str "msg") (by decide) (by decide) (by decide) (by decide) (by decide)
     (by decide)⟩

end loglib
